import Mathlib

/-!
Shallow embedding of the KrishiRakshak firmware decision pipeline
(src/firmware: main.c, ml_inference.c, wireless_comms.c, utils.h).

Machine floats are modelled as rationals (`ℚ`); the C `(int8_t)` /
`(uint8_t)` casts are modelled as truncation toward zero; `uint32_t`
arithmetic is modelled on `ℕ` with explicit `% 2^32`.
-/

/-- Truncation toward zero of a rational, the behaviour of a C
float-to-integer cast (for values representable in the target type). -/
def truncQ (q : ℚ) : ℤ :=
  if 0 ≤ q then ⌊q⌋ else ⌈q⌉

/-- Round half away from zero, the rounding the spec (§4.3) prescribes
for the quantizer. -/
def roundHalfAway (q : ℚ) : ℤ :=
  if 0 ≤ q then ⌊q + 1/2⌋ else ⌈q - 1/2⌉

/-- Input quantization as implemented by `run_ml_inference`
(ml_inference.c line 108): `(int8_t)(features[i] / input_scale +
input_zero_point)` — the float expression is computed and then cast,
i.e. truncated toward zero.  No rounding, no clamping. -/
def quantize (scale : ℚ) (zero_point : ℤ) (f : ℚ) : ℤ :=
  truncQ (f / scale + zero_point)

/-- Quantization as the spec's words describe it (§4.3):
`clamp(round(f/scale) + zero_point, -128, 127)` with
round-half-away-from-zero.  Stated only to be compared against the
source-derived `quantize`. -/
def quantize_spec (scale : ℚ) (zero_point : ℤ) (f : ℚ) : ℤ :=
  max (-128) (min 127 (roundHalfAway (f / scale) + zero_point))

/-- Dequantization as implemented by `run_ml_inference`
(ml_inference.c lines 139 and 148): `(q - zero_point) * scale`. -/
def dequantize (scale : ℚ) (zero_point : ℤ) (q : ℤ) : ℚ :=
  ((q : ℚ) - zero_point) * scale

/-- Sensor sample (ml_inference.h `sensor_data_t`). -/
structure sensor_data_t where
  soil_moisture : ℚ
  temperature : ℚ
  humidity : ℚ
  audio_energy : ℚ
  timestamp : ℕ
deriving DecidableEq

/-- Feature extraction from `run_ml_inference` (ml_inference.c lines
100-103): `[moisture/100, (temperature-10)/40, humidity/100,
audio_energy]`, with no clamping. -/
def extract_features (s : sensor_data_t) : List ℚ :=
  [s.soil_moisture / 100, (s.temperature - 10) / 40, s.humidity / 100,
   s.audio_energy]

/-- The argmax loop of `run_ml_inference` (ml_inference.c lines
128-136): start from index 0, scan indices 1 and 2, replace the
current best only on a strictly greater score. -/
def argmax3 {α : Type} [LinearOrder α] (s : Fin 3 → α) : Fin 3 :=
  if s 1 > s 0 then (if s 2 > s 1 then 2 else 1)
  else (if s 2 > s 0 then 2 else 0)

/-- Alert kinds (wireless_comms.h `alert_type_t`). -/
inductive alert_type_t where
  | ALERT_WATER_STRESS
  | ALERT_PEST_RISK
  | ALERT_LOW_BATTERY
  | ALERT_SYSTEM_ERROR
deriving DecidableEq

/-- The alert gate of `process_sensor_data` (main.c lines 121-145):
alert only when `confidence > threshold` (strict), then switch on the
predicted class; `CLASS_NORMAL` (0) and any class outside 0..2 produce
no alert. -/
def process_sensor_data (predicted_class : ℕ) (confidence t : ℚ) :
    Option alert_type_t :=
  if confidence > t then
    match predicted_class with
    | 0 => none
    | 1 => some .ALERT_WATER_STRESS
    | 2 => some .ALERT_PEST_RISK
    | _ => none
  else none

/-- The decision step on a 3-element raw-scores vector: the predicted
class is the argmax computed by `run_ml_inference`, its confidence is
the winning raw score (`confidence == raw_scores[predicted_class]`),
and `process_sensor_data` gates the alert on the threshold. -/
def decide_alert (scores : Fin 3 → ℚ) (t : ℚ) : Option alert_type_t :=
  process_sensor_data (argmax3 scores).val (scores (argmax3 scores)) t

/-- Confidence threshold of main.c line 19 (`ML_CONFIDENCE_THRESHOLD
70`), used as `ML_CONFIDENCE_THRESHOLD / 100.0`. -/
def ML_CONFIDENCE_THRESHOLD : ℚ := 70

lemma argmax3_le {α : Type} [LinearOrder α] (s : Fin 3 → α) (j : Fin 3) :
    s j ≤ s (argmax3 s) := by
  fin_cases j <;>
    · unfold argmax3
      split_ifs with h1 h2 h2 <;>
        first
          | exact le_rfl
          | exact h1.le
          | exact h2.le
          | exact (h1.trans h2).le
          | exact le_of_not_lt h1
          | exact le_of_not_lt h2
          | exact (le_of_not_lt h1).trans h2.le

lemma argmax3_least {α : Type} [LinearOrder α] (s : Fin 3 → α) (j : Fin 3)
    (hlt : j < argmax3 s) : s j < s (argmax3 s) := by
  fin_cases j <;>
    · unfold argmax3 at hlt ⊢
      split_ifs at hlt ⊢ with h1 h2 h2 <;>
        first
          | exact absurd hlt (by decide)
          | exact h1
          | exact h2
          | exact h1.trans h2
          | exact lt_of_le_of_lt (le_of_not_lt h1) h2

lemma argmax3_cases {α : Type} [LinearOrder α] (s : Fin 3 → α) :
    argmax3 s = 0 ∨ argmax3 s = 1 ∨ argmax3 s = 2 := by
  unfold argmax3; split_ifs <;> simp

example : decide_alert ![1/10, 7/10, 1/10] (ML_CONFIDENCE_THRESHOLD / 100) = none := by
  norm_num [decide_alert, argmax3, process_sensor_data, ML_CONFIDENCE_THRESHOLD]

example : decide_alert ![1/10, 70001/100000, 1/10] (7/10) =
    some .ALERT_WATER_STRESS := by
  norm_num [decide_alert, argmax3, process_sensor_data]

example : argmax3 (![1/2, 1/2, 3/10] : Fin 3 → ℚ) = 0 := by norm_num [argmax3]

example : quantize 1 0 (1/2) = 0 := by norm_num [quantize, truncQ]

example : quantize_spec 1 0 (1/2) = 1 := by
  norm_num [quantize_spec, roundHalfAway]

/-- C1: the decision step (`process_sensor_data` over the inference
result) emits an alert iff the winning raw score is strictly greater
than the confidence threshold and the predicted class is not
`CLASS_NORMAL`; in particular a winning score exactly equal to 0.70
yields no alert while 0.70001 does, and NORMAL never alerts. -/
theorem C1_threshold_strict_normal_silent :
    (∀ (scores : Fin 3 → ℚ) (t : ℚ),
      (∃ a, decide_alert scores t = some a) ↔
        (scores (argmax3 scores) > t ∧ argmax3 scores ≠ 0)) ∧
    decide_alert ![1/10, 7/10, 1/10] (7/10) = none ∧
    decide_alert ![1/10, 70001/100000, 1/10] (7/10) =
      some .ALERT_WATER_STRESS := by
  refine ⟨fun scores t => ?_, ?_, ?_⟩
  · rcases argmax3_cases scores with h | h | h <;> rw [h] <;>
      unfold decide_alert process_sensor_data <;> rw [h] <;>
      by_cases hc : scores 0 > t <;> by_cases hc1 : scores 1 > t <;>
      by_cases hc2 : scores 2 > t <;>
      simp_all [Fin.ext_iff]
  · norm_num [decide_alert, argmax3, process_sensor_data]
  · norm_num [decide_alert, argmax3, process_sensor_data]

lemma dequantize_lt_iff {scale : ℚ} (hs : 0 < scale) (zp a b : ℤ) :
    dequantize scale zp a < dequantize scale zp b ↔ a < b := by
  unfold dequantize
  rw [mul_lt_mul_right hs, sub_lt_sub_iff_right, Int.cast_lt]

/-- C2: the predicted class is the argmax of the scores and ties are
broken by the lowest index.  `run_ml_inference` computes the argmax on
the int8 output tensor; since the output scale is positive this is
also the argmax of the dequantized `raw_scores`, the winning score is
a maximum, and every earlier index scores strictly less; on raw scores
`[0.5, 0.5, 0.3]` class 0 is selected (and with threshold 0.4 the
decision emits nothing, class 0 being NORMAL). -/
theorem C2_argmax_lowest_index_tie :
    (∀ (s : Fin 3 → ℤ) (scale : ℚ) (zero_point : ℤ), 0 < scale →
      (argmax3 (fun i => dequantize scale zero_point (s i)) = argmax3 s ∧
       (∀ j, dequantize scale zero_point (s j) ≤
          dequantize scale zero_point (s (argmax3 s))) ∧
       (∀ j, j < argmax3 s →
          dequantize scale zero_point (s j) <
            dequantize scale zero_point (s (argmax3 s))))) ∧
    argmax3 (![1/2, 1/2, 3/10] : Fin 3 → ℚ) = 0 ∧
    decide_alert ![1/2, 1/2, 3/10] (2/5) = none := by
  refine ⟨fun s scale zero_point hs => ?_, by norm_num [argmax3],
    by norm_num [decide_alert, argmax3, process_sensor_data]⟩
  have key := dequantize_lt_iff hs zero_point
  refine ⟨?_, ?_, ?_⟩
  · unfold argmax3
    simp only [gt_iff_lt, key]
  · intro j
    rcases le_or_lt (s j) (s (argmax3 s)) with h | h
    · rcases eq_or_lt_of_le h with h | h
      · rw [h]
      · exact ((key _ _).mpr h).le
    · exact absurd (argmax3_le s j) (not_le.mpr h)
  · intro j hj
    exact (key _ _).mpr (argmax3_least s j hj)

lemma truncQ_sub_abs_lt (q : ℚ) : |(truncQ q : ℚ) - q| < 1 := by
  unfold truncQ
  split_ifs with h
  · rw [abs_lt]
    constructor <;> linarith [Int.floor_le q, Int.lt_floor_add_one q]
  · rw [abs_lt]
    constructor <;> linarith [Int.le_ceil q, Int.ceil_lt_add_one q]

lemma truncQ_abs_le (q : ℚ) : |(truncQ q : ℚ)| ≤ |q| := by
  unfold truncQ
  split_ifs with h
  · have h0 : (0:ℚ) ≤ (⌊q⌋ : ℚ) := by
      exact_mod_cast Int.floor_nonneg.mpr h
    rw [abs_of_nonneg h0, abs_of_nonneg h]
    exact Int.floor_le q
  · have hq : q ≤ 0 := le_of_lt (not_le.mp h)
    have h0 : (⌈q⌉ : ℚ) ≤ 0 := by
      exact_mod_cast Int.ceil_le.mpr (show q ≤ ((0:ℤ):ℚ) by exact_mod_cast hq)
    rw [abs_of_nonpos h0, abs_of_nonpos hq, neg_le_neg_iff]
    exact Int.le_ceil q

lemma roundHalfAway_abs_le (q : ℚ) : |(roundHalfAway q : ℚ) - q| ≤ 1/2 := by
  unfold roundHalfAway
  split_ifs with h
  · rw [abs_le]
    constructor <;> linarith [Int.floor_le (q + 1/2), Int.lt_floor_add_one (q + 1/2)]
  · rw [abs_le]
    constructor <;> linarith [Int.le_ceil (q - 1/2), Int.ceil_lt_add_one (q - 1/2)]

/-- C3 counterexample: with scale 1 and zero-point 0, the source's
quantizer truncates 0.5 to 0, while the spec's formula
`clamp(round(f/scale) + zero_point, -128, 127)` with
round-half-away-from-zero gives 1. -/
theorem C3_counterexample : quantize 1 0 (1/2) = 0 ∧
    quantize_spec 1 0 (1/2) = 1 := by
  constructor <;> norm_num [quantize, truncQ, quantize_spec, roundHalfAway]

/-- C3 amended: the quantization step computes the C cast
`(int8_t)(f/scale + zero_point)`, i.e. the truncation toward zero of
`f/scale + zero_point` (characterised by being within 1 of it and no
larger in absolute value), with no rounding-half-away-from-zero and no
saturation: values outside [-128, 127], e.g. 1000, pass through the
arithmetic unclamped before the int8 cast. -/
theorem C3_quantize_truncates_no_clamp :
    (∀ (scale : ℚ) (zero_point : ℤ) (f : ℚ),
      |(quantize scale zero_point f : ℚ) - (f / scale + zero_point)| < 1 ∧
      |(quantize scale zero_point f : ℚ)| ≤ |f / scale + zero_point|) ∧
    quantize 1 0 1000 = 1000 ∧ quantize 1 0 (-1000) = -1000 := by
  refine ⟨fun scale zp f => ⟨truncQ_sub_abs_lt _, truncQ_abs_le _⟩, ?_, ?_⟩
  · norm_num [quantize, truncQ]
  · have h1 : ⌈((-1000 : ℤ) : ℚ)⌉ = -1000 := Int.ceil_intCast _
    norm_num [quantize, truncQ]
    exact_mod_cast h1

/-- C4: for inputs in the representable range (the spec's
`round(f/scale) + zero_point` lands in [-128, 127]) the quantized
value fits in int8 and the quantize/dequantize round trip loses at
most one quantization step: `|dequantize(quantize(f)) - f| ≤ scale`. -/
theorem C4_round_trip_bound (scale : ℚ) (zero_point : ℤ) (f : ℚ)
    (hs : 0 < scale)
    (hr : -128 ≤ roundHalfAway (f / scale) + zero_point ∧
          roundHalfAway (f / scale) + zero_point ≤ 127) :
    (-128 ≤ quantize scale zero_point f ∧
      quantize scale zero_point f ≤ 127) ∧
    |dequantize scale zero_point (quantize scale zero_point f) - f| ≤
      scale := by
  have hround : |(roundHalfAway (f / scale) : ℚ) - f / scale| ≤ 1/2 :=
    roundHalfAway_abs_le _
  have hylo : -257/2 ≤ f / scale + (zero_point : ℚ) := by
    obtain ⟨h1, _⟩ := hr
    rw [abs_le] at hround
    have h1q : (-128 : ℚ) ≤ (roundHalfAway (f / scale) : ℚ) + zero_point := by
      exact_mod_cast h1
    linarith [hround.2]
  have hyhi : f / scale + (zero_point : ℚ) ≤ 255/2 := by
    obtain ⟨_, h2⟩ := hr
    rw [abs_le] at hround
    have h2q : (roundHalfAway (f / scale) : ℚ) + zero_point ≤ 127 := by
      exact_mod_cast h2
    linarith [hround.1]
  constructor
  · unfold quantize truncQ
    constructor
    · split_ifs with h
      · have h0 : (0:ℤ) ≤ ⌊f / scale + (zero_point : ℚ)⌋ :=
          Int.floor_nonneg.mpr h
        omega
      · have h0 : (-129:ℤ) < ⌈f / scale + (zero_point : ℚ)⌉ := by
          rw [Int.lt_ceil]
          push_cast
          linarith
        omega
    · split_ifs with h
      · have h0 : ⌊f / scale + (zero_point : ℚ)⌋ < 128 := by
          rw [Int.floor_lt]
          push_cast
          linarith
        omega
      · have h0 : ⌈f / scale + (zero_point : ℚ)⌉ ≤ 0 :=
          Int.ceil_le.mpr (by push_cast; linarith [not_le.mp h])
        omega
  · have hne : scale ≠ 0 := ne_of_gt hs
    have hfe : f / scale * scale = f := div_mul_cancel₀ f hne
    have htr : |(truncQ (f / scale + (zero_point : ℚ)) : ℚ) -
        (f / scale + (zero_point : ℚ))| < 1 := truncQ_sub_abs_lt _
    unfold dequantize quantize
    have hsplit : ((truncQ (f / scale + (zero_point : ℚ)) : ℚ) - zero_point) *
        scale - f =
        ((truncQ (f / scale + (zero_point : ℚ)) : ℚ) -
          (f / scale + (zero_point : ℚ))) * scale := by
      linear_combination hfe
    rw [hsplit, abs_mul, abs_of_pos hs]
    calc |(truncQ (f / scale + (zero_point : ℚ)) : ℚ) -
          (f / scale + (zero_point : ℚ))| * scale ≤ 1 * scale :=
          mul_le_mul_of_nonneg_right htr.le hs.le
      _ = scale := one_mul scale

/-- C4 witness: scale 1, zero-point 0, input 0.5. -/
theorem C4_round_trip_bound_witness :
    (0:ℚ) < 1 ∧
    (-128 ≤ roundHalfAway ((1/2 : ℚ) / 1) + 0 ∧
      roundHalfAway ((1/2 : ℚ) / 1) + 0 ≤ 127) ∧
    ((-128 ≤ quantize 1 0 (1/2) ∧ quantize 1 0 (1/2) ≤ 127) ∧
      |dequantize 1 0 (quantize 1 0 (1/2)) - 1/2| ≤ 1) :=
  ⟨by norm_num, by norm_num [roundHalfAway],
    C4_round_trip_bound 1 0 (1/2) (by norm_num)
      (by norm_num [roundHalfAway])⟩

/-- C2 witness: int8 scores [5, 5, 3], output scale 1/10, zero-point 0,
so the dequantized raw scores are [0.5, 0.5, 0.3]. -/
theorem C2_argmax_lowest_index_tie_witness :
    (0:ℚ) < 1/10 ∧
    (argmax3 (fun i => dequantize (1/10) 0 ((![5, 5, 3] : Fin 3 → ℤ) i)) =
        argmax3 (![5, 5, 3] : Fin 3 → ℤ) ∧
     (∀ j, dequantize (1/10) 0 ((![5, 5, 3] : Fin 3 → ℤ) j) ≤
        dequantize (1/10) 0
          ((![5, 5, 3] : Fin 3 → ℤ) (argmax3 (![5, 5, 3] : Fin 3 → ℤ)))) ∧
     (∀ j, j < argmax3 (![5, 5, 3] : Fin 3 → ℤ) →
        dequantize (1/10) 0 ((![5, 5, 3] : Fin 3 → ℤ) j) <
          dequantize (1/10) 0
            ((![5, 5, 3] : Fin 3 → ℤ) (argmax3 (![5, 5, 3] : Fin 3 → ℤ))))) :=
  ⟨by norm_num,
    C2_argmax_lowest_index_tie.1 ![5, 5, 3] (1/10) 0 (by norm_num)⟩

/-- Modulus of `uint32_t` arithmetic. -/
def U32 : ℕ := 2^32

/-- wireless_comms.h line 23: `MIN_ALERT_INTERVAL_MS 300000`. -/
def MIN_ALERT_INTERVAL_MS : ℕ := 300000

/-- The cross-cycle mutable state of wireless_comms.c (lines 23-24):
`wireless_connected` and `last_alert_time` (the rate limiter's
last-sent timestamp), both statically initialised to false / 0. -/
structure CommsState where
  wireless_connected : Bool
  last_alert_time : ℕ
deriving DecidableEq

/-- Environment oracle for one `send_wireless_alert` call: the outcome
of `wireless_connect()` if invoked, whether `format_alert_json`
returns a positive length, and the outcome of `send_http_alert`. -/
structure SendEnv where
  connect_ok : Bool
  json_ok : Bool
  http_ok : Bool
deriving DecidableEq

/-- Which exit path a `send_wireless_alert` call took. -/
inductive SendOutcome where
  | rate_limited
  | no_connection
  | json_failed
  | send_failed
  | sent
deriving DecidableEq

/-- `uint32_t` subtraction `a - b` (wrap-around), for `b < 2^32`. -/
def sub32 (a b : ℕ) : ℕ := (a + U32 - b) % U32

set_option linter.unusedVariables false in
/-- `send_wireless_alert` (wireless_comms.c lines 92-138): rate-check
first (`system_tick - last_alert_time < MIN_ALERT_INTERVAL_MS` in
uint32 arithmetic, regardless of the alert kind), then connect if
needed, format JSON, attempt HTTP delivery; `last_alert_time` is
assigned `system_tick` only on delivery success.  Returns the C
function's boolean result, the new state and the exit path taken. -/
def send_wireless_alert (st : CommsState) (system_tick : ℕ)
    (alert_type : alert_type_t) (env : SendEnv) :
    Bool × CommsState × SendOutcome :=
  if sub32 system_tick st.last_alert_time < MIN_ALERT_INTERVAL_MS then
    (false, st, .rate_limited)
  else if !st.wireless_connected && !env.connect_ok then
    (false, st, .no_connection)
  else
    let st1 : CommsState := { st with wireless_connected := true }
    if !env.json_ok then (false, st1, .json_failed)
    else if env.http_ok then
      (true, { st1 with last_alert_time := system_tick }, .sent)
    else (false, st1, .send_failed)

lemma send_last_step (st : CommsState) (tick : ℕ) (k : alert_type_t)
    (e : SendEnv) :
    ((send_wireless_alert st tick k e).2.1.last_alert_time =
      if (send_wireless_alert st tick k e).2.2 = SendOutcome.sent then tick
      else st.last_alert_time) ∧
    ((send_wireless_alert st tick k e).1 = true ↔
      (send_wireless_alert st tick k e).2.2 = SendOutcome.sent) := by
  unfold send_wireless_alert
  split_ifs <;> simp_all

/-- Trace of dispatcher states across a sequence of invocations, each
given by (system_tick, alert kind, transport environment). -/
def runAlerts (st : CommsState) :
    List (ℕ × alert_type_t × SendEnv) → List CommsState
  | [] => []
  | c :: cs =>
      (send_wireless_alert st c.1 c.2.1 c.2.2).2.1 ::
        runAlerts (send_wireless_alert st c.1 c.2.1 c.2.2).2.1 cs

lemma chain_le_of_le_head {l : List ℕ} {a b : ℕ} (hba : b ≤ a)
    (h : List.Chain' (· ≤ ·) (a :: l)) : List.Chain' (· ≤ ·) (b :: l) := by
  cases l with
  | nil => simp
  | cons c l =>
    rw [List.chain'_cons] at h ⊢
    exact ⟨hba.trans h.1, h.2⟩

lemma runAlerts_chain (calls : List (ℕ × alert_type_t × SendEnv)) :
    ∀ st : CommsState,
      List.Chain' (· ≤ ·) (st.last_alert_time :: calls.map Prod.fst) →
      List.Chain' (· ≤ ·)
        ((st :: runAlerts st calls).map CommsState.last_alert_time) := by
  induction calls with
  | nil =>
    intro st _
    simp [runAlerts]
  | cons c cs ih =>
    intro st h
    rw [List.map_cons, List.chain'_cons] at h
    have hstep := (send_last_step st c.1 c.2.1 c.2.2).1
    have h1 : st.last_alert_time ≤
        (send_wireless_alert st c.1 c.2.1 c.2.2).2.1.last_alert_time := by
      rw [hstep]
      split_ifs
      · exact h.1
      · exact le_rfl
    have h2 : (send_wireless_alert st c.1 c.2.1 c.2.2).2.1.last_alert_time ≤
        c.1 := by
      rw [hstep]
      split_ifs
      · exact le_rfl
      · exact h.1
    simp only [runAlerts, List.map_cons]
    rw [List.chain'_cons]
    exact ⟨h1, by
      have := ih (send_wireless_alert st c.1 c.2.1 c.2.2).2.1
        (chain_le_of_le_head h2 h.2)
      simpa using this⟩

lemma send_rate_limited (st : CommsState) (tick : ℕ) (k : alert_type_t)
    (e : SendEnv)
    (hcond : sub32 tick st.last_alert_time < MIN_ALERT_INTERVAL_MS) :
    send_wireless_alert st tick k e = (false, st, SendOutcome.rate_limited) := by
  unfold send_wireless_alert
  rw [if_pos hcond]

/-- C5: the rate limiter is global across alert kinds.  If a first
intent of any kind is sent successfully at `t1`, then a second intent
of any (possibly different) kind submitted at `t2` less than
`MIN_ALERT_INTERVAL_MS` after `t1` is rate limited:
`send_wireless_alert` returns false, the state is unchanged (the
intent is dropped, not queued), and the exit path is `rate_limited`,
so neither connection nor delivery is attempted. -/
theorem C5_rate_limiter_global (st : CommsState) (t1 t2 : ℕ)
    (k1 k2 : alert_type_t) (e1 e2 : SendEnv)
    (hsent : (send_wireless_alert st t1 k1 e1).1 = true)
    (h12 : t1 ≤ t2) (hwin : t2 < t1 + MIN_ALERT_INTERVAL_MS)
    (hb : t2 < U32) :
    send_wireless_alert (send_wireless_alert st t1 k1 e1).2.1 t2 k2 e2 =
      (false, (send_wireless_alert st t1 k1 e1).2.1,
        SendOutcome.rate_limited) := by
  have hstep := send_last_step st t1 k1 e1
  have hlast : (send_wireless_alert st t1 k1 e1).2.1.last_alert_time = t1 := by
    rw [hstep.1, if_pos (hstep.2.mp hsent)]
  have hb' : t2 < 4294967296 := hb
  have hwin' : t2 < t1 + 300000 := hwin
  apply send_rate_limited
  rw [hlast]
  show (t2 + 4294967296 - t1) % 4294967296 < 300000
  omega

/-- C5 witness: water-stress alert sent at t=300000, pest-risk alert
1000 ms later is rate limited. -/
theorem C5_rate_limiter_global_witness :
    (send_wireless_alert ⟨false, 0⟩ 300000 alert_type_t.ALERT_WATER_STRESS
      ⟨true, true, true⟩).1 = true ∧
    300000 ≤ 301000 ∧ 301000 < 300000 + MIN_ALERT_INTERVAL_MS ∧
    301000 < U32 ∧
    send_wireless_alert
      (send_wireless_alert ⟨false, 0⟩ 300000 alert_type_t.ALERT_WATER_STRESS
        ⟨true, true, true⟩).2.1 301000 alert_type_t.ALERT_PEST_RISK
      ⟨true, true, true⟩ =
      (false,
        (send_wireless_alert ⟨false, 0⟩ 300000
          alert_type_t.ALERT_WATER_STRESS ⟨true, true, true⟩).2.1,
        SendOutcome.rate_limited) :=
  ⟨by decide, by decide, by decide, by decide,
    C5_rate_limiter_global ⟨false, 0⟩ 300000 301000 _ _ _ _ (by decide)
      (by decide) (by decide) (by decide)⟩

/-- C6: `last_alert_time` is updated to the current `system_tick`
exactly when the exit path is `sent` (equivalently, when the call
returns true), and is left unchanged on every failure path; hence
across any sequence of invocations with non-decreasing `system_tick`
values (starting at or after the initial `last_alert_time`) the
`last_alert_time` trace is monotonically non-decreasing. -/
theorem C6_last_alert_monotone :
    (∀ (st : CommsState) (tick : ℕ) (k : alert_type_t) (e : SendEnv),
      ((send_wireless_alert st tick k e).2.1.last_alert_time =
        if (send_wireless_alert st tick k e).2.2 = SendOutcome.sent then tick
        else st.last_alert_time) ∧
      ((send_wireless_alert st tick k e).1 = true ↔
        (send_wireless_alert st tick k e).2.2 = SendOutcome.sent)) ∧
    (∀ (st : CommsState) (calls : List (ℕ × alert_type_t × SendEnv)),
      List.Chain' (· ≤ ·) (st.last_alert_time :: calls.map Prod.fst) →
      List.Chain' (· ≤ ·)
        ((st :: runAlerts st calls).map CommsState.last_alert_time)) :=
  ⟨send_last_step, fun st calls h => runAlerts_chain calls st h⟩

/-- C6 witness: two successful sends at ticks 300000 and 700000 from
the boot state give the non-decreasing trace [0, 300000, 700000]. -/
theorem C6_last_alert_monotone_witness :
    List.Chain' (· ≤ ·)
      ((⟨false, 0⟩ : CommsState).last_alert_time ::
        ([(300000, alert_type_t.ALERT_WATER_STRESS,
            (⟨true, true, true⟩ : SendEnv)),
          (700000, alert_type_t.ALERT_PEST_RISK,
            (⟨true, true, true⟩ : SendEnv))].map Prod.fst)) ∧
    List.Chain' (· ≤ ·)
      (((⟨false, 0⟩ : CommsState) :: runAlerts ⟨false, 0⟩
        [(300000, alert_type_t.ALERT_WATER_STRESS, ⟨true, true, true⟩),
         (700000, alert_type_t.ALERT_PEST_RISK, ⟨true, true, true⟩)]).map
        CommsState.last_alert_time) :=
  ⟨by simp [List.chain'_cons, List.chain'_singleton],
    C6_last_alert_monotone.2 ⟨false, 0⟩ _
      (by simp [List.chain'_cons, List.chain'_singleton])⟩

/-- C10: with `last_alert_time` at its static initial value 0, any
alert intent of any kind submitted while `system_tick` is below
`MIN_ALERT_INTERVAL_MS` is rejected by the rate check:
`send_wireless_alert` returns false with the state unchanged and exit
path `rate_limited`, before any connection, encoding or delivery. -/
theorem C10_boot_window_blocked (st : CommsState) (tick : ℕ)
    (k : alert_type_t) (e : SendEnv)
    (h0 : st.last_alert_time = 0) (ht : tick < MIN_ALERT_INTERVAL_MS) :
    send_wireless_alert st tick k e = (false, st, SendOutcome.rate_limited) := by
  have ht' : tick < 300000 := ht
  apply send_rate_limited
  rw [h0]
  show (tick + 4294967296 - 0) % 4294967296 < 300000
  omega

/-- C10 witness: a low-battery intent at tick 1000 after boot is
rate limited. -/
theorem C10_boot_window_blocked_witness :
    (⟨false, 0⟩ : CommsState).last_alert_time = 0 ∧
    1000 < MIN_ALERT_INTERVAL_MS ∧
    send_wireless_alert ⟨false, 0⟩ 1000 alert_type_t.ALERT_LOW_BATTERY
      ⟨true, true, true⟩ = (false, ⟨false, 0⟩, SendOutcome.rate_limited) :=
  ⟨rfl, by decide,
    C10_boot_window_blocked ⟨false, 0⟩ 1000 _ _ rfl (by decide)⟩

/-- `get_alert_type_string` (wireless_comms.c lines 207-214);
`ALERT_SYSTEM_ERROR` falls to the default case. -/
def get_alert_type_string : alert_type_t → String
  | .ALERT_WATER_STRESS => "water_stress"
  | .ALERT_PEST_RISK => "pest_risk"
  | .ALERT_LOW_BATTERY => "low_battery"
  | .ALERT_SYSTEM_ERROR => "unknown"

/-- `get_alert_recommendation` (wireless_comms.c lines 219-226);
`ALERT_SYSTEM_ERROR` falls to the default case. -/
def get_alert_recommendation : alert_type_t → String
  | .ALERT_WATER_STRESS => "Initiate irrigation in affected area"
  | .ALERT_PEST_RISK => "Inspect crops for pest activity and consider treatment"
  | .ALERT_LOW_BATTERY => "Check solar panel and charging system"
  | .ALERT_SYSTEM_ERROR => "Monitor situation"

/-- `alert_message_t` (wireless_comms.h): the struct always contains a
`sensor_data` member. -/
structure alert_message_t where
  device_id : String
  timestamp : ℕ
  alert_type : alert_type_t
  confidence : ℤ
  sensor_data : sensor_data_t
deriving DecidableEq

/-- The JSON object produced by `format_alert_json`, field by field;
`sensor_data = none` would mean the object is omitted from the
payload. -/
structure AlertJson where
  device_id : String
  timestamp : ℕ
  alert_type : String
  confidence : ℤ
  sensor_data : Option sensor_data_t
  recommendation : String
deriving DecidableEq

/-- `format_alert_json` (wireless_comms.c lines 143-168): the snprintf
template writes the `sensor_data` object unconditionally, from
whatever `alert->sensor_data` holds. -/
def format_alert_json (a : alert_message_t) : AlertJson :=
  { device_id := a.device_id
    timestamp := a.timestamp
    alert_type := get_alert_type_string a.alert_type
    confidence := a.confidence
    sensor_data := some a.sensor_data
    recommendation := get_alert_recommendation a.alert_type }

/-- Alert-message construction in `send_wireless_alert`
(wireless_comms.c lines 106-114): `alert.sensor_data` is assigned from
the snapshot only when the pointer is non-NULL; otherwise the member
keeps its indeterminate (never-initialised) stack contents, modelled
by the `junk` parameter.  The uint8 confidence is the truncated
percentage reduced mod 256. -/
def mk_alert_message (k : alert_type_t) (snapshot : Option sensor_data_t)
    (junk : sensor_data_t) (confidence : ℚ) (system_tick : ℕ) :
    alert_message_t :=
  { device_id := "KR_001"
    timestamp := system_tick
    alert_type := k
    confidence := truncQ (confidence * 100) % 256
    sensor_data := snapshot.getD junk }

/-- C9 (code behaviour at the claim's failing input): the encoded JSON
payload contains a `sensor_data` object even when no snapshot
accompanies the intent — a LOW_BATTERY alert built from a NULL
sensor-data pointer serialises the uninitialised struct contents
(`junk`) instead of omitting the object; when a snapshot is present
its fields are used. -/
theorem C9_sensor_data_always_included :
    (∀ (junk : sensor_data_t) (confidence : ℚ) (tick : ℕ),
      (format_alert_json (mk_alert_message .ALERT_LOW_BATTERY none junk
        confidence tick)).sensor_data = some junk) ∧
    (∀ (snap junk : sensor_data_t) (k : alert_type_t) (confidence : ℚ)
        (tick : ℕ),
      (format_alert_json (mk_alert_message k (some snap) junk confidence
        tick)).sensor_data = some snap) :=
  ⟨fun _ _ _ => rfl, fun _ _ _ _ _ => rfl⟩

/-- C8: feature extraction is a pure function of the sample producing
exactly `[moisture/100, (temperature-10)/40, humidity/100, audio]`
with no clamping; the sample {20, 35, 80, 0.9} yields
[0.20, 0.625, 0.80, 0.9], and an out-of-nominal-range input (for
example temperature 60 °C) yields a feature outside [0, 1]. -/
theorem C8_feature_extraction :
    (∀ s : sensor_data_t,
      extract_features s =
        [s.soil_moisture / 100, (s.temperature - 10) / 40,
         s.humidity / 100, s.audio_energy]) ∧
    extract_features ⟨20, 35, 80, 9/10, 0⟩ = [1/5, 5/8, 4/5, 9/10] ∧
    extract_features ⟨20, 60, 80, 9/10, 0⟩ =
      [1/5, 5/4, 4/5, 9/10] ∧ (1 : ℚ) < 5/4 := by
  refine ⟨fun s => rfl, ?_, ?_, by norm_num⟩ <;>
    · unfold extract_features
      norm_num

/-- Modelled from the spec: the StatsBuffer implementation (utils.c) is
missing from the source tree — utils.h (lines 27-87) only declares
`circular_buffer_t` and its operations, documenting that push returns
false when the buffer is full, pop returns false when empty, and
mean/stddev return 0 when empty; spec §4.1 fixes FIFO order, no
implicit eviction, and statistics over the current contents.  The
buffer is modelled by its capacity (`size`) and logical contents
(`data`, head first). -/
structure circular_buffer_t where
  size : ℕ
  data : List ℚ
deriving DecidableEq

/-- Modelled from the spec: current element count of the buffer. -/
def circular_buffer_count (cb : circular_buffer_t) : ℕ := cb.data.length

/-- Modelled from the spec: push appends at the logical tail, failing
as a no-op when count equals capacity. -/
def circular_buffer_push (cb : circular_buffer_t) (value : ℚ) :
    Bool × circular_buffer_t :=
  if cb.data.length = cb.size then (false, cb)
  else (true, { cb with data := cb.data ++ [value] })

/-- Modelled from the spec: pop removes and returns the logical head,
failing when the buffer is empty. -/
def circular_buffer_pop (cb : circular_buffer_t) :
    Bool × Option ℚ × circular_buffer_t :=
  match cb.data with
  | [] => (false, none, cb)
  | x :: rest => (true, some x, { cb with data := rest })

/-- Modelled from the spec: mean of the contents, 0 when empty. -/
def circular_buffer_mean (cb : circular_buffer_t) : ℚ :=
  if cb.data.length = 0 then 0 else cb.data.sum / cb.data.length

/-- Modelled from the spec: population variance of the contents, 0
when empty. -/
def circular_buffer_variance (cb : circular_buffer_t) : ℚ :=
  if cb.data.length = 0 then 0
  else (cb.data.map (fun x => (x - circular_buffer_mean cb)^2)).sum /
    cb.data.length

/-- Modelled from the spec: standard deviation, 0 when empty;
parametric in the square-root routine the C float code would use. -/
def circular_buffer_stddev (sqrtf : ℚ → ℚ) (cb : circular_buffer_t) : ℚ :=
  if cb.data.length = 0 then 0 else sqrtf (circular_buffer_variance cb)

/-- Push a list of values left to right. -/
def pushAll (cb : circular_buffer_t) : List ℚ → circular_buffer_t
  | [] => cb
  | v :: vs => pushAll (circular_buffer_push cb v).2 vs

/-- Pop `n` times in sequence. -/
def popN (cb : circular_buffer_t) : ℕ → circular_buffer_t
  | 0 => cb
  | Nat.succ n => popN (circular_buffer_pop cb).2.2 n

lemma pushAll_spec (vs : List ℚ) : ∀ cb : circular_buffer_t,
    cb.data.length + vs.length ≤ cb.size →
    (pushAll cb vs).size = cb.size ∧ (pushAll cb vs).data = cb.data ++ vs := by
  induction vs with
  | nil =>
    intro cb _
    exact ⟨rfl, by simp [pushAll]⟩
  | cons v vs ih =>
    intro cb h
    have hlen : cb.data.length ≠ cb.size := by
      simp only [List.length_cons] at h
      omega
    unfold pushAll
    simp only [circular_buffer_push]
    rw [if_neg hlen]
    obtain ⟨h1, h2⟩ := ih { cb with data := cb.data ++ [v] }
      (by simp only [List.length_append, List.length_cons, List.length_nil]
            at h ⊢
          omega)
    exact ⟨h1, by rw [h2]; simp⟩

lemma pushAll_append (xs ys : List ℚ) : ∀ cb : circular_buffer_t,
    pushAll cb (xs ++ ys) = pushAll (pushAll cb xs) ys := by
  induction xs with
  | nil => intro cb; rfl
  | cons x xs ih => intro cb; exact ih (circular_buffer_push cb x).2

lemma popN_spec (n : ℕ) : ∀ cb : circular_buffer_t, n ≤ cb.data.length →
    (popN cb n).size = cb.size ∧ (popN cb n).data = cb.data.drop n := by
  induction n with
  | zero =>
    intro cb _
    exact ⟨rfl, by simp [popN]⟩
  | succ n ih =>
    rintro ⟨sz, data⟩ h
    cases data with
    | nil => simp at h
    | cons x rest =>
      have := ih ⟨sz, rest⟩ (by simp only [List.length_cons] at h; exact Nat.succ_le_succ_iff.mp h)
      exact ⟨this.1, this.2⟩

lemma pop_nonempty (cb : circular_buffer_t) (h : cb.data ≠ []) :
    (circular_buffer_pop cb).1 = true := by
  obtain ⟨sz, data⟩ := cb
  cases data with
  | nil => simp at h
  | cons x rest => rfl

lemma pop_empty (cb : circular_buffer_t) (h : cb.data = []) :
    circular_buffer_pop cb = (false, none, cb) := by
  obtain ⟨sz, data⟩ := cb
  dsimp only at h
  subst h
  rfl

/-- C7: StatsBuffer boundary behaviour (modelled from the spec, the
implementation file being absent): push into a full buffer fails as a
no-op; pushing capacity + 1 values into an empty buffer leaves exactly
the first `capacity` values in FIFO order and the last push fails
without altering the contents; pop from empty fails; popping while
non-empty succeeds, and the pop after `count` pops fails; mean and
stddev of an empty buffer are 0; and `count ≤ capacity` is preserved
by push and pop — there is no implicit eviction. -/
theorem C7_stats_buffer_boundaries :
    (∀ (cb : circular_buffer_t) (v : ℚ),
      circular_buffer_count cb = cb.size →
      circular_buffer_push cb v = (false, cb)) ∧
    (∀ (cap : ℕ) (vs : List ℚ) (v : ℚ), vs.length = cap →
      (pushAll ⟨cap, []⟩ vs).data = vs ∧
      circular_buffer_push (pushAll ⟨cap, []⟩ vs) v =
        (false, pushAll ⟨cap, []⟩ vs) ∧
      (pushAll ⟨cap, []⟩ (vs ++ [v])).data = vs) ∧
    (∀ cb : circular_buffer_t, cb.data = [] →
      circular_buffer_pop cb = (false, none, cb)) ∧
    (∀ (cb : circular_buffer_t) (k : ℕ), k < cb.data.length →
      (circular_buffer_pop (popN cb k)).1 = true) ∧
    (∀ cb : circular_buffer_t,
      (circular_buffer_pop (popN cb cb.data.length)).1 = false) ∧
    (∀ (cap : ℕ) (sqrtf : ℚ → ℚ),
      circular_buffer_mean ⟨cap, []⟩ = 0 ∧
      circular_buffer_stddev sqrtf ⟨cap, []⟩ = 0) ∧
    (∀ (cb : circular_buffer_t) (v : ℚ),
      circular_buffer_count cb ≤ cb.size →
      circular_buffer_count (circular_buffer_push cb v).2 ≤
        (circular_buffer_push cb v).2.size ∧
      circular_buffer_count (circular_buffer_pop cb).2.2 ≤
        (circular_buffer_pop cb).2.2.size) := by
  have hfull : ∀ (cb : circular_buffer_t) (v : ℚ),
      circular_buffer_count cb = cb.size →
      circular_buffer_push cb v = (false, cb) := by
    intro cb v h
    unfold circular_buffer_count at h
    unfold circular_buffer_push
    rw [if_pos h]
  refine ⟨hfull, ?_, fun cb h => pop_empty cb h, ?_, ?_, ?_, ?_⟩
  · intro cap vs v h
    obtain ⟨h1, h2⟩ := pushAll_spec vs ⟨cap, []⟩ (by simp [h])
    simp only [List.nil_append] at h2
    have hpushfail : circular_buffer_push (pushAll ⟨cap, []⟩ vs) v =
        (false, pushAll ⟨cap, []⟩ vs) :=
      hfull _ v (by unfold circular_buffer_count; rw [h2, h1, h])
    refine ⟨h2, hpushfail, ?_⟩
    rw [pushAll_append]
    show (pushAll (circular_buffer_push (pushAll ⟨cap, []⟩ vs) v).2 []).data = vs
    rw [hpushfail]
    exact h2
  · intro cb k hk
    apply pop_nonempty
    rw [(popN_spec k cb hk.le).2]
    intro hnil
    have := congrArg List.length hnil
    simp only [List.length_drop, List.length_nil] at this
    omega
  · intro cb
    have h2 := (popN_spec cb.data.length cb le_rfl).2
    have hempty : (popN cb cb.data.length).data = [] := by
      rw [h2, List.drop_length]
    rw [pop_empty _ hempty]
  · intro cap sqrtf
    constructor <;> rfl
  · intro cb v h
    constructor
    · unfold circular_buffer_push circular_buffer_count at *
      split_ifs with hf
      · exact h
      · simp only [List.length_append, List.length_cons, List.length_nil]
        omega
    · obtain ⟨sz, data⟩ := cb
      cases data with
      | nil => exact h
      | cons x rest =>
        unfold circular_buffer_count at h
        simp only [List.length_cons] at h
        show rest.length ≤ sz
        omega

/-- C7 witness: capacity 2, values [1, 2], overflow value 3. -/
theorem C7_stats_buffer_boundaries_witness :
    circular_buffer_count ⟨2, [1, 2]⟩ = (⟨2, [1, 2]⟩ : circular_buffer_t).size ∧
    circular_buffer_push ⟨2, [1, 2]⟩ 5 = (false, ⟨2, [1, 2]⟩) ∧
    ([(1:ℚ), 2].length = 2 ∧
      (pushAll ⟨2, []⟩ [1, 2]).data = [1, 2] ∧
      circular_buffer_push (pushAll ⟨2, []⟩ [1, 2]) 3 =
        (false, pushAll ⟨2, []⟩ [1, 2]) ∧
      (pushAll ⟨2, []⟩ ([1, 2] ++ [3])).data = [1, 2]) ∧
    circular_buffer_pop ⟨2, []⟩ = (false, none, ⟨2, []⟩) ∧
    (1 < ((⟨2, [1, 2]⟩ : circular_buffer_t)).data.length ∧
      (circular_buffer_pop (popN ⟨2, [1, 2]⟩ 1)).1 = true) ∧
    (circular_buffer_pop
      (popN ⟨2, [1, 2]⟩ ((⟨2, [1, 2]⟩ : circular_buffer_t)).data.length)).1 =
      false ∧
    (circular_buffer_mean ⟨2, []⟩ = 0 ∧
      circular_buffer_stddev id ⟨2, []⟩ = 0) ∧
    (circular_buffer_count ⟨2, [1]⟩ ≤ (⟨2, [1]⟩ : circular_buffer_t).size ∧
      circular_buffer_count (circular_buffer_push ⟨2, [1]⟩ 7).2 ≤
        (circular_buffer_push ⟨2, [1]⟩ 7).2.size ∧
      circular_buffer_count (circular_buffer_pop ⟨2, [1]⟩).2.2 ≤
        (circular_buffer_pop ⟨2, [1]⟩).2.2.size) :=
  ⟨rfl,
    C7_stats_buffer_boundaries.1 ⟨2, [1, 2]⟩ 5 rfl,
    ⟨rfl, C7_stats_buffer_boundaries.2.1 2 [1, 2] 3 rfl⟩,
    C7_stats_buffer_boundaries.2.2.1 ⟨2, []⟩ rfl,
    ⟨by decide, C7_stats_buffer_boundaries.2.2.2.1 ⟨2, [1, 2]⟩ 1 (by decide)⟩,
    C7_stats_buffer_boundaries.2.2.2.2.1 ⟨2, [1, 2]⟩,
    C7_stats_buffer_boundaries.2.2.2.2.2.1 2 id,
    by decide,
    C7_stats_buffer_boundaries.2.2.2.2.2.2 ⟨2, [1]⟩ 7 (by decide)⟩
